import Mathlib

/-!
# Verification of the voice-call orchestration core

Shallow embedding of the call/conversation lifecycle of the
AI-virtual-assistant backend: the `CallHandler` orchestrator
(`src/services/phone/call_handler.py`), the `PhoneAgent`
(`src/agents/phone_agent.py`), the TwiML generators of `TwilioService`
(`src/services/phone/twilio_service.py`), the classification helpers of
`OpenAIService` (`src/services/ai/openai_service.py`) and the
`text_to_speech` entry of `ElevenLabsService`
(`src/services/voice/elevenlabs_service.py`), over a pure model of the
relational store (calls, conversations, voice profiles).

External providers (completion, synthesis, database commits) are modelled
by oracles: an `Outcome` value per provider interaction, `.ok` carrying the
provider's reply and `.err` standing for a raised provider exception.
Python `try/except` blocks become explicit case analysis on those
outcomes.  Persistence follows the SQLAlchemy session discipline of the
source: object mutations take effect in the persisted state only at a
successful `commit`, and each handler returns, besides its result, the
list of database snapshots committed during the run (an empty list when
the run commits nothing).
-/

namespace VA

/-- Outcome of one interaction with an external provider (or of one
database commit): `ok` carries the provider's value, `err` stands for a
raised exception. -/
inductive Outcome (α : Type) where
  | ok : α → Outcome α
  | err : Outcome α
deriving Repr, DecidableEq

/-- Typed application errors from `src/core/exceptions.py` that the
modelled code paths can raise. -/
inductive PyError where
  | openAIError : PyError
  | elevenLabsError : String → PyError
deriving Repr, DecidableEq

/-- The `CallStatus` enum from `src/models/call.py`. -/
inductive CallStatus where
  | initiated | ringing | in_progress | completed
  | busy | failed | no_answer | canceled
deriving Repr, DecidableEq

/-- One stored conversation message: a (role, content, timestamp) triple.
Timestamps are a logical clock (`Nat`) supplied by the caller. -/
structure Message where
  role : String
  content : String
  timestamp : Nat
deriving Repr, DecidableEq

/-- A role/content pair as sent to the completion provider (timestamps
stripped). -/
structure ChatMessage where
  role : String
  content : String
deriving Repr, DecidableEq

/-- A `Call` row from `src/models/call.py` (the columns the orchestrator
touches). -/
structure Call where
  id : Nat
  twilio_call_sid : String
  direction : String
  from_number : String
  to_number : String
  status : CallStatus
  duration : Option Int
  recording_url : Option String
deriving Repr, DecidableEq

/-- A `Conversation` row.  The model class itself is not under `src/`
(only its callers are); its columns are taken from spec §3: ordered
message sequence plus derived fields summary, intent, sentiment. -/
structure Conversation where
  call_id : Nat
  messages : List Message
  summary : Option String
  intent : Option String
  sentiment : Option String
deriving Repr, DecidableEq

/-- A `VoiceProfile` row from `src/models/voice_profile.py` (the columns the
orchestrator touches). -/
structure VoiceProfile where
  id : Nat
  elevenlabs_voice_id : String
  is_active : Bool
deriving Repr, DecidableEq

/-- The persisted relational state: the calls, conversations and
voice-profile tables, plus the next fresh primary key. -/
structure DB where
  calls : List Call
  conversations : List Conversation
  voice_profiles : List VoiceProfile
  next_id : Nat
deriving Repr, DecidableEq

/-- Embedding of `SELECT ... WHERE calls.twilio_call_sid = sid` followed by
`scalar_one_or_none()`: first matching row, if any (`twilio_call_sid` is
a unique column, so at most one row matches in a well-formed store). -/
def DB.findCall (db : DB) (sid : String) : Option Call :=
  db.calls.find? (fun c => c.twilio_call_sid == sid)

/-- Embedding of `SELECT ... WHERE conversations.call_id = id` followed by
`scalar_one_or_none()`: first matching row, if any. -/
def DB.findConversation (db : DB) (callId : Nat) : Option Conversation :=
  db.conversations.find? (fun cv => cv.call_id == callId)

/-- Replace the conversation rows whose `call_id` matches by the mutated
object (models in-place mutation of the row loaded by the query above). -/
def DB.updateConversation (db : DB) (callId : Nat) (cv : Conversation) : DB :=
  { db with
    conversations :=
      db.conversations.map (fun c => if c.call_id == callId then cv else c) }

/-- Replace the call row with the given id by the mutated object. -/
def DB.updateCall (db : DB) (callId : Nat) (c : Call) : DB :=
  { db with
    calls := db.calls.map (fun k => if k.id == callId then c else k) }

/-- Modelled from the spec: `Conversation.add_message` is not under
`src/` (only called from `call_handler.py`); spec §4.2:
`append(conversation, role, content)` appends to the ordered message
sequence and stamps the current time. -/
def Conversation.add_message (c : Conversation) (role content : String)
    (now : Nat) : Conversation :=
  { c with messages := c.messages ++ [⟨role, content, now⟩] }

/-- Modelled from the spec: `Conversation.get_messages_for_llm` is not
under `src/`; spec §4.2: `messages_for_completion` returns the stored
messages verbatim as role/content pairs, timestamps stripped. -/
def Conversation.get_messages_for_llm (c : Conversation) : List ChatMessage :=
  c.messages.map (fun m => ⟨m.role, m.content⟩)

/-! ## TwiML generators (`src/services/phone/twilio_service.py`)

`VoiceResponse` from the Twilio SDK serializes to the XML header followed
by a `<Response>` element wrapping the appended verbs; the generators
below build that string directly. -/

/-- The configured webhook base URL (`settings.twilio_webhook_url`); its
exact value is irrelevant to every claim. -/
def twilio_webhook_url : String := "https://example.com/api/v1/webhooks/twilio"

/-- XML declaration emitted by `VoiceResponse.__str__`. -/
def twimlHeader : String := "<?xml version=\"1.0\" encoding=\"UTF-8\"?>"

/-- Embedding of `response.say(text, language=\"es-ES\")`. -/
def sayVerb (text : String) : String :=
  "<Say language=\"es-ES\">" ++ text ++ "</Say>"

/-- Embedding of `response.play(url)`. -/
def playVerb (url : String) : String :=
  "<Play>" ++ url ++ "</Play>"

/-- A `Gather` verb with the fixed speech-input attributes used throughout
`twilio_service.py`, wrapping `inner` (the nested `Say`, if any). -/
def gatherVerb (inner : String) : String :=
  "<Gather input=\"speech\" action=\"" ++ twilio_webhook_url ++
    "/gather\" method=\"POST\" speechTimeout=\"auto\" language=\"es-ES\">" ++
    inner ++ "</Gather>"

/-- The `<Response>` wrapper of `VoiceResponse.__str__`. -/
def responseWrap (body : String) : String :=
  twimlHeader ++ "<Response>" ++ body ++ "</Response>"

/-- A string is valid call-control markup when it is a `<Response>`
document, i.e. some verb sequence wrapped by `responseWrap`. -/
def ValidTwiml (s : String) : Prop :=
  ∃ body, s = responseWrap body

/-- Embedding of `TwilioService.generate_greeting_twiml`. -/
def generate_greeting_twiml (message : Option String) : String :=
  let greeting :=
    message.getD "Hello! I am your AI assistant. How can I help you today?"
  responseWrap (gatherVerb (sayVerb greeting) ++
    sayVerb "I didn\x27t receive any input. Goodbye!" ++ "<Hangup/>")

/-- Embedding of `TwilioService.generate_response_twiml`. -/
def generate_response_twiml (message : String) (audio_url : Option String)
    (continue_conversation : Bool) : String :=
  responseWrap
    ((match audio_url with
      | some url => playVerb url
      | none => sayVerb message) ++
     (if continue_conversation then gatherVerb ""
      else sayVerb "Thank you for calling. Goodbye!" ++ "<Hangup/>"))

/-- Embedding of `TwilioService.generate_hangup_twiml`. -/
def generate_hangup_twiml (message : Option String) : String :=
  responseWrap
    ((match message with
      | some m => sayVerb m
      | none => "") ++ "<Hangup/>")

/-! ## OpenAI service (`src/services/ai/openai_service.py`)

`chat_completion` either returns the (possibly empty) content string or
raises `OpenAIError`; the oracle is a function from the message list sent
to the provider to that outcome.  `detect_intent` and `analyze_sentiment`
call `chat_completion` and `json.loads` inside a `try` that catches every
exception and returns a default dict, so they never raise; their oracles
combine provider call and JSON parse into one `Outcome` whose `ok` value
is the parsed dict's `.get` result for the field the orchestrator reads
(`None` when the key is absent). -/

/-- Embedding of `OpenAIService.chat_completion` (non-streaming): the provider's content
on success (`content or \"\"` makes a null content the empty string, so the
`ok` payload is exactly the returned string), `OpenAIError` on any
exception. -/
def chat_completion (complete : List ChatMessage → Outcome String)
    (messages : List ChatMessage) : Except PyError String :=
  match complete messages with
  | .ok s => .ok s
  | .err => .error .openAIError

/-- The value a classification helper returns, as seen through the single
`.get(field)` the orchestrator performs on it: `json.loads` may produce a
dict (whose `.get` yields the payload, `none` when the key is absent) or
any other JSON value, on which `.get` raises `AttributeError` in the
caller. -/
inductive PyResult where
  | dict : Option String → PyResult
  | nonDict : PyResult
deriving Repr, DecidableEq

/-- Embedding of `OpenAIService.detect_intent`: the parsed provider reply
on success; on any exception inside it (API error or unparseable JSON) the
fallback dict whose `intent` entry is `other`.  It never raises. -/
def detect_intent (classify : Outcome PyResult) : PyResult :=
  match classify with
  | .ok r => r
  | .err => .dict (some "other")

/-- Embedding of `OpenAIService.analyze_sentiment`: the parsed provider
reply on success; on any exception inside it the fallback dict whose
`sentiment` entry is `neutral`.  It never raises. -/
def analyze_sentiment (classify : Outcome PyResult) : PyResult :=
  match classify with
  | .ok r => r
  | .err => .dict (some "neutral")

/-! ## Phone agent (`src/agents/phone_agent.py`) -/

/-- The system prompt loaded by `PhoneAgent._load_system_prompt` (a fixed
string constant; abbreviated to its first line, its exact text is
irrelevant to every claim). -/
def system_prompt : String :=
  "Eres un asistente virtual profesional para una empresa."

/-- The optional context keys `PhoneAgent._format_context` understands. -/
structure AgentContext where
  caller_name : Option String := none
  caller_number : Option String := none
  business_hours : Option String := none
  company_name : Option String := none
deriving Repr, DecidableEq

/-- Embedding of `PhoneAgent._format_context`: the recognised keys, in
source order, rendered and joined with a comma. -/
def format_context (ctx : AgentContext) : String :=
  let parts :=
    (match ctx.caller_name with
     | some v => ["Nombre del llamante: " ++ v]
     | none => []) ++
    (match ctx.caller_number with
     | some v => ["Número: " ++ v]
     | none => []) ++
    (match ctx.business_hours with
     | some v => ["Horario de atención: " ++ v]
     | none => []) ++
    (match ctx.company_name with
     | some v => ["Empresa: " ++ v]
     | none => [])
  if parts.isEmpty then "No hay contexto adicional"
  else String.intercalate ", " parts

/-- The fixed fallback reply of `PhoneAgent.generate_response` when any
exception escapes its `try` block. -/
def agent_fallback : String :=
  "Disculpa, tuve un problema técnico. ¿Podrías repetir lo que dijiste?"

/-- Embedding of `PhoneAgent.generate_response`: builds the provider
message list (system prompt, history, optional context block, user
message), requests a completion, and on any exception returns the fixed
fallback string instead of raising. -/
def generate_response (complete : List ChatMessage → Outcome String)
    (user_message : String) (conversation_history : List ChatMessage)
    (context : Option AgentContext) : String :=
  let messages := [ChatMessage.mk "system" system_prompt] ++ conversation_history
  let messages :=
    match context with
    | some ctx =>
        messages ++
          [ChatMessage.mk "system" ("Contexto adicional: " ++ format_context ctx)]
    | none => messages
  let messages := messages ++ [ChatMessage.mk "user" user_message]
  match chat_completion complete messages with
  | .ok s => s
  | .error _ => agent_fallback

/-! ## ElevenLabs service (`src/services/voice/elevenlabs_service.py`) -/

/-- Python truthiness of an optional string: `None` and `\"\"` are falsy. -/
def strTruthy : Option String → Bool
  | none => false
  | some s => !(s == "")

/-- Python `a or b` on optional strings. -/
def pyOr (a b : Option String) : Option String :=
  if strTruthy a then a else b

/-- Embedding of `ElevenLabsService.text_to_speech`.  `default_voice_id`
is the configured `settings.elevenlabs_default_voice_id`; `provider` is
the outcome of the `generate` call (the synthesized bytes, modelled as a
`List Nat`).  Returns the result together with a flag recording whether a
synthesis request was attempted against the provider.  The `raise
ElevenLabsError(\"No voice ID provided or configured\")` inside the `try`
is itself caught by the `except` and re-raised as
`ElevenLabsError(\"Text-to-speech failed: ...\")`, so every failure is the
typed `ElevenLabsError`. -/
def text_to_speech (default_voice_id : Option String)
    (provider : String → Outcome (List Nat)) (text : String)
    (voice_id : Option String) :
    Except PyError (List Nat) × Bool :=
  let voice_to_use := pyOr voice_id default_voice_id
  if strTruthy voice_to_use then
    match provider text with
    | .ok audio => (.ok audio, true)
    | .err =>
        (.error (.elevenLabsError "Text-to-speech failed: provider error"), true)
  else
    (.error (.elevenLabsError
      "Text-to-speech failed: No voice ID provided or configured"), false)

/-! ## Call handler (`src/services/phone/call_handler.py`)

Each handler is one webhook unit of work.  The returned `DB` is the
persisted state after the run (the last successfully committed snapshot,
or the initial state when nothing was committed: uncommitted session
mutations die with the request).  The returned `List DB` is the commit
trace: the snapshot persisted by each successful `db.commit()` of the
run, in order. -/

/-- The fixed greeting spoken by `handle_incoming_call`. -/
def incoming_greeting : String :=
  "¡Hola! Soy tu asistente virtual. ¿En qué puedo ayudarte hoy?"

/-- Fallback TwiML returned by `handle_incoming_call`'s except branch. -/
def incoming_fallback_twiml : String :=
  generate_hangup_twiml
    (some "Lo siento, hay un problema técnico. Por favor, llama más tarde.")

/-- Fallback TwiML returned by `handle_user_speech`'s except branch. -/
def speech_fallback_twiml : String :=
  generate_response_twiml "Disculpa, tuve un problema. ¿Puedes repetir?" none true

/-- The failure points of one `handle_incoming_call` run: its two
`db.commit()` calls (the TwiML generators are pure and cannot fail). -/
structure IncomingOracle where
  commit1 : Outcome Unit
  commit2 : Outcome Unit

/-- Embedding of `CallHandler.handle_incoming_call`: create a Call row
with status `in-progress` and commit it, create an empty Conversation row
linked to it and commit it, and return greeting TwiML; on any exception
return hangup-apology TwiML instead of raising. -/
def handle_incoming_call (db : DB) (o : IncomingOracle)
    (call_sid from_number to_number : String) : DB × String × List DB :=
  let call : Call :=
    { id := db.next_id, twilio_call_sid := call_sid, direction := "inbound",
      from_number := from_number, to_number := to_number,
      status := .in_progress, duration := none, recording_url := none }
  let db1 : DB :=
    { db with calls := db.calls ++ [call], next_id := db.next_id + 1 }
  match o.commit1 with
  | .err => (db, incoming_fallback_twiml, [])
  | .ok _ =>
    let conv : Conversation :=
      { call_id := call.id, messages := [], summary := none,
        intent := none, sentiment := none }
    let db2 : DB := { db1 with conversations := db1.conversations ++ [conv] }
    match o.commit2 with
    | .err => (db1, incoming_fallback_twiml, [db1])
    | .ok _ => (db2, generate_greeting_twiml (some incoming_greeting), [db1, db2])

/-- The failure points of one `handle_user_speech` run: the completion
provider (a function of the message list sent), the two classification
calls, the single `db.commit()`, the voice-profile query and the
synthesis provider (a function of the text synthesized). -/
structure SpeechOracle where
  complete : List ChatMessage → Outcome String
  intentClassify : Outcome PyResult
  sentimentClassify : Outcome PyResult
  commit : Outcome Unit
  profileQuery : Outcome Unit
  tts : String → Outcome (List Nat)

/-- The inner `try` of `handle_user_speech` (intent/sentiment analysis):
set `intent` from `detect_intent`'s reply, then `sentiment` from
`analyze_sentiment`'s reply; the `.get` of a non-dict reply raises into
the inner `except`, which leaves the remaining fields as they were and
lets the turn continue. -/
def apply_classification (cv : Conversation) (i s : Outcome PyResult) :
    Conversation :=
  match detect_intent i with
  | .nonDict => cv
  | .dict vi =>
    let withIntent := { cv with intent := vi }
    match analyze_sentiment s with
    | .nonDict => withIntent
    | .dict vs => { withIntent with sentiment := vs }

/-- Embedding of `CallHandler._get_active_voice_profile`: first active
profile; `None` on any query exception. -/
def get_active_voice_profile (db : DB) (q : Outcome Unit) : Option VoiceProfile :=
  match q with
  | .err => none
  | .ok _ => db.voice_profiles.find? (fun p => p.is_active)

/-- Embedding of `CallHandler._save_audio`: the placeholder storage URL. -/
def save_audio (call_sid : String) : String :=
  "https://storage.example.com/audio/" ++ call_sid ++ ".mp3"

/-- The tail of a committed `handle_user_speech` turn (lines 164-182 of
`call_handler.py`): select the active voice profile, synthesize the reply,
save the audio, and render response TwiML; any exception in this chain
lands in the outer `except`, which returns fallback response TwiML (the
commit has already happened, so the persisted state stays `db1`). -/
def speech_turn_finish (dv : Option String) (o : SpeechOracle) (sid : String)
    (ai_response : String) (db1 : DB) : DB × String × List DB :=
  match (text_to_speech dv o.tts ai_response
      ((get_active_voice_profile db1 o.profileQuery).map
        (fun p => p.elevenlabs_voice_id))).1 with
  | .error _ => (db1, speech_fallback_twiml, [db1])
  | .ok _ =>
      (db1, generate_response_twiml ai_response (some (save_audio sid)) true,
       [db1])

/-- Embedding of `CallHandler.handle_user_speech`.  `default_voice_id` is
the ElevenLabs service's configured default voice.  Looks up Call and
Conversation (hangup TwiML when either is missing), appends the user
message, generates the agent reply (never raises: provider failure yields
the agent's fallback string), appends it as the assistant message, sets
intent and sentiment from the classification helpers inside the inner
`try` (whose `except` is reachable only through the `.get` of a non-dict
reply), commits everything in one `db.commit()`, then synthesizes audio
and renders response TwiML; any exception after this point — and a commit
failure — lands in the outer `except`, which returns fallback response
TwiML instead of raising. -/
def handle_user_speech (default_voice_id : Option String)
    (db : DB) (o : SpeechOracle) (now : Nat)
    (call_sid speech_result : String) : DB × String × List DB :=
  match db.findCall call_sid with
  | none => (db, generate_hangup_twiml none, [])
  | some call =>
    match db.findConversation call.id with
    | none => (db, generate_hangup_twiml none, [])
    | some conversation =>
      let conv1 := conversation.add_message "user" speech_result now
      let ai_response :=
        generate_response o.complete speech_result conv1.get_messages_for_llm
          (some { caller_number := some call.from_number,
                  company_name := some "Tu Empresa" })
      let conv2 := conv1.add_message "assistant" ai_response now
      let conv3 :=
        apply_classification conv2 o.intentClassify o.sentimentClassify
      let db1 := db.updateConversation call.id conv3
      match o.commit with
      | .err => (db, speech_fallback_twiml, [])
      | .ok _ => speech_turn_finish default_voice_id o call_sid ai_response db1

/-- The failure points of one `handle_call_completed` run: the summary
completion call and the single `db.commit()`. -/
structure CompletedOracle where
  complete : List ChatMessage → Outcome String
  commit : Outcome Unit

/-- The conversation transcript `_generate_summary` builds:
`role: content` lines joined by newlines. -/
def conversation_text (messages : List Message) : String :=
  String.intercalate "\n" (messages.map (fun m => m.role ++ ": " ++ m.content))

/-- The summary prompt `_generate_summary` sends to the provider. -/
def summary_prompt (messages : List Message) : String :=
  "Resume esta conversación telefónica en 2-3 oraciones:\n\n" ++
    conversation_text messages ++ "\n\nResume:"

/-- Embedding of `CallHandler._generate_summary`: requests a completion of
the summary prompt; on any exception returns the fixed fallback text
instead of raising. -/
def generate_summary (complete : List ChatMessage → Outcome String)
    (messages : List Message) : String :=
  match chat_completion complete [ChatMessage.mk "user" (summary_prompt messages)] with
  | .ok s => s
  | .error _ => "Resumen no disponible"

/-- Embedding of `CallHandler.handle_call_completed`.  Looks up the Call
(silently doing nothing when it is missing), marks it completed with the
given duration and recording reference, stores a summary on the
conversation when it exists and has messages, and commits once; every
exception is caught and logged, and the Python function always returns
`None`.  The returned flag records whether a summary was requested from
the completion provider. -/
def handle_call_completed (db : DB) (o : CompletedOracle)
    (call_sid : String) (duration : Option Int)
    (recording_url : Option String) : DB × Bool :=
  match db.findCall call_sid with
  | none => (db, false)
  | some call =>
    let call1 : Call :=
      { call with
        status := .completed
        duration := duration
        recording_url := recording_url }
    let db1 := db.updateCall call.id call1
    match db1.findConversation call.id with
    | none =>
      match o.commit with
      | .ok _ => (db1, false)
      | .err => (db, false)
    | some conversation =>
      if conversation.messages.isEmpty then
        match o.commit with
        | .ok _ => (db1, false)
        | .err => (db, false)
      else
        let conv1 :=
          { conversation with
            summary := some (generate_summary o.complete conversation.messages) }
        let db2 := db1.updateConversation call.id conv1
        match o.commit with
        | .ok _ => (db2, true)
        | .err => (db, true)

/-! ## Helper lemmas -/

/-- Every generated hangup TwiML is a `<Response>` document. -/
theorem validTwiml_hangup (m : Option String) :
    ValidTwiml (generate_hangup_twiml m) :=
  ⟨_, rfl⟩

/-- Every generated response TwiML is a `<Response>` document. -/
theorem validTwiml_response (m : String) (u : Option String) (c : Bool) :
    ValidTwiml (generate_response_twiml m u c) :=
  ⟨_, rfl⟩

/-- Every generated greeting TwiML is a `<Response>` document. -/
theorem validTwiml_greeting (m : Option String) :
    ValidTwiml (generate_greeting_twiml m) :=
  ⟨_, rfl⟩

/-- Replacing rows by `y` (under any row predicate `q` that holds at the
row `find?` located) keeps `find?` pointing at the replacement, provided
`y` itself satisfies the search predicate. -/
theorem find?_map_update {α : Type} (p q : α → Bool) (l : List α) (x y : α)
    (h : l.find? p = some x) (hqx : q x = true) (hpy : p y = true) :
    (l.map (fun a => if q a then y else a)).find? p = some y := by
  induction l with
  | nil => simp at h
  | cons a t ih =>
      by_cases hpa : p a = true
      · rw [List.find?_cons_of_pos _ hpa] at h
        obtain rfl : a = x := by simpa using h
        simp only [List.map_cons, hqx, if_true]
        exact List.find?_cons_of_pos _ hpy
      · rw [List.find?_cons_of_neg _ (by simpa using hpa)] at h
        simp only [List.map_cons]
        by_cases hqa : q a = true
        · simp only [hqa, if_true]
          exact List.find?_cons_of_pos _ hpy
        · simp only [hqa, if_false]
          rw [List.find?_cons_of_neg _ (by simpa using hpa)]
          exact ih h

/-- Updating via `updateConversation` at the located conversation's key makes
`findConversation` return the replacement. -/
theorem findConversation_updateConversation (db : DB) (callId : Nat)
    (cv cv' : Conversation) (h : db.findConversation callId = some cv)
    (h' : cv'.call_id = callId) :
    (db.updateConversation callId cv').findConversation callId = some cv' := by
  have h2 : db.conversations.find? (fun c => c.call_id == callId) = some cv := h
  have hp := List.find?_some h2
  exact find?_map_update _ _ _ cv cv' h2 hp (by simp [h'])

/-- Updating via `updateCall` at the located call's primary key makes `findCall`
return the replacement when the replacement keeps the session id. -/
theorem findCall_updateCall (db : DB) (sid : String) (call call' : Call)
    (h : db.findCall sid = some call)
    (hsid : call'.twilio_call_sid = sid) :
    (db.updateCall call.id call').findCall sid = some call' := by
  exact find?_map_update _ _ _ call call' h (by simp) (by simp [hsid])

/-- Table separation: `updateCall` leaves the conversations table untouched, and
`updateConversation` leaves the calls table untouched. -/
theorem update_other_tables (db : DB) (i j : Nat) (c : Call)
    (cv : Conversation) :
    (db.updateCall i c).conversations = db.conversations ∧
    (db.updateConversation j cv).calls = db.calls :=
  ⟨rfl, rfl⟩

/-- Classification only touches the derived intent/sentiment fields: the
message sequence is untouched. -/
theorem apply_classification_messages (cv : Conversation)
    (i s : Outcome PyResult) :
    (apply_classification cv i s).messages = cv.messages := by
  unfold apply_classification
  cases detect_intent i with
  | nonDict => rfl
  | dict vi =>
      cases analyze_sentiment s with
      | nonDict => rfl
      | dict vs => rfl

/-- Classification keeps the conversation's foreign key. -/
theorem apply_classification_call_id (cv : Conversation)
    (i s : Outcome PyResult) :
    (apply_classification cv i s).call_id = cv.call_id := by
  unfold apply_classification
  cases detect_intent i with
  | nonDict => rfl
  | dict vi =>
      cases analyze_sentiment s with
      | nonDict => rfl
      | dict vs => rfl

/-- When both classification calls fail, the orchestrator overwrites the
conversation's intent and sentiment with the classifiers' defaults. -/
theorem apply_classification_err (cv : Conversation) :
    apply_classification cv .err .err =
      { cv with intent := some "other", sentiment := some "neutral" } := rfl

/-- A row of the updated conversations table is the replacement or an
original row. -/
theorem mem_updateConversation {db : DB} {i : Nat} {cv' x : Conversation}
    (hx : x ∈ (db.updateConversation i cv').conversations) :
    x = cv' ∨ x ∈ db.conversations := by
  obtain ⟨a, ha, hax⟩ := List.mem_map.mp hx
  by_cases h : (a.call_id == i) = true
  · left; rw [← hax]; simp [h]
  · right; rw [← hax]; simp only [h, if_false]; exact ha

/-- The conversation object as mutated by one `handle_user_speech` turn
that reaches the commit: user message appended, assistant reply appended,
classification fields applied. -/
def turn_conversation (o : SpeechOracle) (now : Nat) (speech : String)
    (call : Call) (conv : Conversation) : Conversation :=
  apply_classification
    ((conv.add_message "user" speech now).add_message "assistant"
      (generate_response o.complete speech
        ((conv.add_message "user" speech now).get_messages_for_llm)
        (some { caller_number := some call.from_number,
                company_name := some "Tu Empresa" })) now)
    o.intentClassify o.sentimentClassify

/-- The fallback TwiML of the speech handler is a Response document. -/
theorem validTwiml_speech_fallback : ValidTwiml speech_fallback_twiml :=
  ⟨_, rfl⟩

/-- The committed tail of a turn keeps the committed store, commits
nothing further, and always renders a Response document. -/
theorem speech_turn_finish_spec (dv : Option String) (o : SpeechOracle)
    (sid resp : String) (db1 : DB) :
    (speech_turn_finish dv o sid resp db1).1 = db1 ∧
    (speech_turn_finish dv o sid resp db1).2.2 = [db1] ∧
    ValidTwiml (speech_turn_finish dv o sid resp db1).2.1 := by
  unfold speech_turn_finish
  cases h : (text_to_speech dv o.tts resp
      ((get_active_voice_profile db1 o.profileQuery).map
        (fun p => p.elevenlabs_voice_id))).1 with
  | error e => exact ⟨rfl, rfl, validTwiml_speech_fallback⟩
  | ok a =>
      exact ⟨rfl, rfl, validTwiml_response resp (some (save_audio sid)) true⟩

/-- Every TwiML string `handle_user_speech` returns is a Response
document: the handler never raises toward the telephony layer. -/
theorem handle_user_speech_valid_twiml (dv : Option String) (db : DB)
    (o : SpeechOracle) (now : Nat) (sid speech : String) :
    ValidTwiml (handle_user_speech dv db o now sid speech).2.1 := by
  cases hc : db.findCall sid with
  | none =>
      simp only [handle_user_speech, hc]
      exact validTwiml_hangup none
  | some call =>
    cases hv : db.findConversation call.id with
    | none =>
        simp only [handle_user_speech, hc, hv]
        exact validTwiml_hangup none
    | some conv =>
        cases hcm : o.commit with
        | err =>
            simp only [handle_user_speech, hc, hv, hcm]
            exact validTwiml_speech_fallback
        | ok u =>
            simp only [handle_user_speech, hc, hv, hcm]
            exact (speech_turn_finish_spec _ _ _ _ _).2.2

/-- One `handle_user_speech` turn on a known session either fails its
commit (store untouched, fallback TwiML, empty commit trace) or commits
exactly once, persisting the turn's mutated conversation. -/
theorem handle_user_speech_run (dv : Option String) (db : DB)
    (o : SpeechOracle) (now : Nat) (sid speech : String)
    (call : Call) (conv : Conversation)
    (hc : db.findCall sid = some call)
    (hv : db.findConversation call.id = some conv) :
    (o.commit = .err ∧
      handle_user_speech dv db o now sid speech =
        (db, speech_fallback_twiml, [])) ∨
    (o.commit = .ok () ∧
      (handle_user_speech dv db o now sid speech).1 =
        db.updateConversation call.id
          (turn_conversation o now speech call conv) ∧
      (handle_user_speech dv db o now sid speech).2.2 =
        [db.updateConversation call.id
          (turn_conversation o now speech call conv)]) := by
  cases hcm : o.commit with
  | err =>
      refine Or.inl ⟨rfl, ?_⟩
      simp only [handle_user_speech, hc, hv, hcm]
  | ok u =>
      cases u
      refine Or.inr ⟨rfl, ?_, ?_⟩ <;>
        simp only [handle_user_speech, turn_conversation, hc, hv, hcm] <;>
        simp only [(speech_turn_finish_spec dv o sid _ _).1,
          (speech_turn_finish_spec dv o sid _ _).2.1]

/-! ## Fixtures for witnesses and counterexamples -/

/-- A stored in-progress call with session id `CA123`. -/
def callW : Call :=
  { id := 0, twilio_call_sid := "CA123", direction := "inbound",
    from_number := "+1555", to_number := "+1800",
    status := .in_progress, duration := none, recording_url := none }

/-- The empty conversation linked to `callW`. -/
def convW : Conversation :=
  { call_id := 0, messages := [], summary := none,
    intent := none, sentiment := none }

/-- A store holding exactly `callW` and `convW`. -/
def dbW : DB :=
  { calls := [callW], conversations := [convW],
    voice_profiles := [], next_id := 1 }

/-- A completed-call oracle whose provider fails and whose commit
succeeds. -/
def oComplW : CompletedOracle :=
  { complete := fun _ => .err, commit := .ok () }

/-! ## Claims -/

/-- C2: for every speech-gathered event whose session id matches no stored
Call, or whose Call has no Conversation row, `handle_user_speech` returns
hangup markup and mutates no rows: the persisted store is unchanged (so
every Call, Conversation and VoiceProfile record is unchanged), the
response is the hangup TwiML, and nothing is committed. -/
theorem c2_unknown_session_hangup_no_mutation (dv : Option String) (db : DB)
    (o : SpeechOracle) (now : Nat) (sid speech : String)
    (h : db.findCall sid = none ∨
      ∃ call, db.findCall sid = some call ∧
        db.findConversation call.id = none) :
    handle_user_speech dv db o now sid speech =
      (db, generate_hangup_twiml none, []) := by
  rcases h with h | ⟨call, hc, hv⟩
  · simp [handle_user_speech, h]
  · simp [handle_user_speech, hc, hv]

/-- Witness for C2 at a concrete store: session id `CA404` is unknown in
`dbW`, and the handler leaves the store untouched and hangs up. -/
theorem c2_witness :
    (dbW.findCall "CA404" = none ∨
      ∃ call, dbW.findCall "CA404" = some call ∧
        dbW.findConversation call.id = none) ∧
    handle_user_speech none dbW
        { complete := fun _ => .err, intentClassify := .err,
          sentimentClassify := .err, commit := .ok (),
          profileQuery := .ok (), tts := fun _ => .err } 0 "CA404" "hola" =
      (dbW, generate_hangup_twiml none, []) :=
  ⟨Or.inl (by decide),
   c2_unknown_session_hangup_no_mutation none dbW _ 0 "CA404" "hola"
     (Or.inl (by decide))⟩

/-- C7: `text_to_speech` with an absent `voice_id` argument and no
configured default voice id fails with the typed `ElevenLabsError`, and no
synthesis request is attempted against the provider. -/
theorem c7_no_voice_typed_error_no_request
    (provider : String → Outcome (List Nat)) (text : String) :
    (∃ msg, (text_to_speech none provider text none).1 =
      .error (.elevenLabsError msg)) ∧
    (text_to_speech none provider text none).2 = false :=
  ⟨⟨_, rfl⟩, rfl⟩

/-- C9: `handle_call_completed` on a session id that matches no stored
Call is a silent no-op: the store is unchanged, no summary is requested
from the provider, and the handler returns normally (no error value). -/
theorem c9_completed_unknown_call_noop (db : DB) (o : CompletedOracle)
    (sid : String) (duration : Option Int) (recording_url : Option String)
    (h : db.findCall sid = none) :
    handle_call_completed db o sid duration recording_url = (db, false) := by
  simp [handle_call_completed, h]

/-- Witness for C9 at a concrete store: completing unknown session
`CA404` leaves `dbW` untouched and requests no summary. -/
theorem c9_witness :
    dbW.findCall "CA404" = none ∧
    handle_call_completed dbW oComplW "CA404" (some 42) none = (dbW, false) :=
  ⟨by decide,
   c9_completed_unknown_call_noop dbW oComplW "CA404" (some 42) none
     (by decide)⟩

/-- C10: `_generate_summary` never raises: when the completion request for
its prompt fails it returns the fixed fallback text `Resumen no
disponible`; consequently a completed call whose conversation has messages
always gets some summary string stored (for any oracle, under a
successful commit). -/
theorem c10_generate_summary_total (messages : List Message)
    (complete : List ChatMessage → Outcome String)
    (hfail : complete [ChatMessage.mk "user" (summary_prompt messages)] = .err) :
    generate_summary complete messages = "Resumen no disponible" ∧
    ∀ (db : DB) (o : CompletedOracle) (sid : String) (dur : Option Int)
      (recUrl : Option String) (call : Call) (conv : Conversation),
      db.findCall sid = some call →
      db.findConversation call.id = some conv →
      conv.messages.isEmpty = false →
      o.commit = .ok () →
      ∃ cv' s,
        (handle_call_completed db o sid dur recUrl).1.findConversation call.id =
          some cv' ∧ cv'.summary = some s := by
  constructor
  · simp [generate_summary, chat_completion, hfail]
  · intro db o sid dur recUrl call conv hc hv hne hcommit
    have hv1 : (db.updateCall call.id
        { call with
          status := .completed
          duration := dur
          recording_url := recUrl }).findConversation call.id = some conv := hv
    refine ⟨{ conv with
        summary := some (generate_summary o.complete conv.messages) }, _, ?_, rfl⟩
    have hkey : conv.call_id = call.id := by
      simpa using List.find?_some
        (show db.conversations.find? (fun c => c.call_id == call.id) = some conv
          from hv)
    simp only [handle_call_completed, hc, hv1, hne, hcommit]
    exact findConversation_updateConversation _ _ conv _ hv1 hkey

/-- Witness for C10: a failing completion provider on a one-message
conversation yields the fallback summary text. -/
theorem c10_witness :
    ((fun _ : List ChatMessage => (Outcome.err : Outcome String))
        [ChatMessage.mk "user" (summary_prompt [Message.mk "user" "hola" 1])] =
      Outcome.err) ∧
    (generate_summary (fun _ => .err) [Message.mk "user" "hola" 1] =
        "Resumen no disponible" ∧
      ∀ (db : DB) (o : CompletedOracle) (sid : String) (dur : Option Int)
        (recUrl : Option String) (call : Call) (conv : Conversation),
        db.findCall sid = some call →
        db.findConversation call.id = some conv →
        conv.messages.isEmpty = false →
        o.commit = .ok () →
        ∃ cv' s,
          (handle_call_completed db o sid dur recUrl).1.findConversation
              call.id = some cv' ∧ cv'.summary = some s) :=
  ⟨rfl, c10_generate_summary_total [Message.mk "user" "hola" 1] (fun _ => .err) rfl⟩

/-- A conversation for `callW` holding one user message. -/
def convM : Conversation :=
  { call_id := 0, messages := [Message.mk "user" "hola" 1], summary := none,
    intent := none, sentiment := none }

/-- A store holding `callW` with the one-message conversation `convM`. -/
def dbM : DB :=
  { calls := [callW], conversations := [convM],
    voice_profiles := [], next_id := 1 }

/-- C6: for every call-completed event whose session id matches a stored
Call, `handle_call_completed` (under a successful commit) leaves the Call
with status `completed` and the given duration and recording reference,
stores a Completion-Client summary on the conversation iff it has at
least one message (an empty conversation is left unchanged), and — for
any oracle whose commit fails — still returns normally with the store
rolled back, raising nothing to the caller. -/
theorem c6_call_completed_updates (db : DB) (o : CompletedOracle)
    (sid : String) (duration : Option Int) (recording_url : Option String)
    (call : Call) (conv : Conversation)
    (hc : db.findCall sid = some call)
    (hv : db.findConversation call.id = some conv)
    (hcommit : o.commit = .ok ()) :
    (∃ call',
      (handle_call_completed db o sid duration recording_url).1.findCall sid =
        some call' ∧ call'.status = .completed ∧ call'.duration = duration ∧
        call'.recording_url = recording_url) ∧
    (∃ conv',
      (handle_call_completed db o sid duration
          recording_url).1.findConversation call.id = some conv' ∧
      (conv.messages.isEmpty = false →
        conv'.summary = some (generate_summary o.complete conv.messages)) ∧
      (conv.messages.isEmpty = true → conv' = conv)) ∧
    (handle_call_completed db o sid duration recording_url).2 =
      !conv.messages.isEmpty ∧
    (∀ o' : CompletedOracle, o'.commit = .err →
      (handle_call_completed db o' sid duration recording_url).1 = db) := by
  have hsid : call.twilio_call_sid = sid := by
    simpa using List.find?_some
      (show db.calls.find? (fun c => c.twilio_call_sid == sid) = some call
        from hc)
  have hkey : conv.call_id = call.id := by
    simpa using List.find?_some
      (show db.conversations.find? (fun c => c.call_id == call.id) = some conv
        from hv)
  have hv1 : (db.updateCall call.id
      { call with
        status := .completed
        duration := duration
        recording_url := recording_url }).findConversation call.id =
      some conv := hv
  have hfc1 : (db.updateCall call.id
      { call with
        status := .completed
        duration := duration
        recording_url := recording_url }).findCall sid =
      some { call with
        status := .completed
        duration := duration
        recording_url := recording_url } :=
    findCall_updateCall db sid call _ hc hsid
  cases hne : conv.messages.isEmpty with
  | true =>
      refine ⟨⟨{ call with
          status := .completed
          duration := duration
          recording_url := recording_url }, ?_, rfl, rfl, rfl⟩,
        ⟨conv, ?_, ?_, fun _ => rfl⟩, ?_, ?_⟩
      · simp only [handle_call_completed, hc, hv1, hne, hcommit, if_true]
        exact hfc1
      · simp only [handle_call_completed, hc, hv1, hne, hcommit, if_true]
      · intro h; exact absurd h (by decide)
      · simp only [handle_call_completed, hc, hv1, hne, hcommit, if_true]
        decide
      · intro o' ho'
        simp only [handle_call_completed, hc, hv1, hne, ho', if_true]
  | false =>
      refine ⟨⟨{ call with
          status := .completed
          duration := duration
          recording_url := recording_url }, ?_, rfl, rfl, rfl⟩,
        ⟨{ conv with
          summary := some (generate_summary o.complete conv.messages) },
          ?_, fun _ => rfl, ?_⟩, ?_, ?_⟩
      · simp only [handle_call_completed, hc, hv1, hne, hcommit,
          Bool.false_eq_true, if_false]
        exact hfc1
      · simp only [handle_call_completed, hc, hv1, hne, hcommit,
          Bool.false_eq_true, if_false]
        exact findConversation_updateConversation _ _ conv _ hv1 hkey
      · intro h; exact absurd h (by decide)
      · simp only [handle_call_completed, hc, hv1, hne, hcommit,
          Bool.false_eq_true, if_false]
        decide
      · intro o' ho'
        simp only [handle_call_completed, hc, hv1, hne, ho',
          Bool.false_eq_true, if_false]

/-- Witness for C6 at a concrete store: completing `CA123` in `dbM` (one
stored message, failing summary provider, successful commit). -/
theorem c6_witness :
    dbM.findCall "CA123" = some callW ∧
    dbM.findConversation callW.id = some convM ∧
    oComplW.commit = .ok () ∧
    ((∃ call',
      (handle_call_completed dbM oComplW "CA123" (some 42)
          (some "https://rec.example.com/r1")).1.findCall "CA123" =
        some call' ∧ call'.status = .completed ∧ call'.duration = some 42 ∧
        call'.recording_url = some "https://rec.example.com/r1") ∧
    (∃ conv',
      (handle_call_completed dbM oComplW "CA123" (some 42)
          (some "https://rec.example.com/r1")).1.findConversation callW.id =
        some conv' ∧
      (convM.messages.isEmpty = false →
        conv'.summary = some (generate_summary oComplW.complete convM.messages)) ∧
      (convM.messages.isEmpty = true → conv' = convM)) ∧
    (handle_call_completed dbM oComplW "CA123" (some 42)
        (some "https://rec.example.com/r1")).2 = !convM.messages.isEmpty ∧
    (∀ o' : CompletedOracle, o'.commit = .err →
      (handle_call_completed dbM o' "CA123" (some 42)
          (some "https://rec.example.com/r1")).1 = dbM)) :=
  ⟨by decide, by decide, rfl,
   c6_call_completed_updates dbM oComplW "CA123" (some 42)
     (some "https://rec.example.com/r1") callW convM (by decide) (by decide) rfl⟩

/-- C3: for every inbound call-started event on a fresh session id (and
with both commits succeeding), `handle_incoming_call` leaves exactly one
Call row for that session id — with status `in-progress` — and exactly
one Conversation row linked to it, with an empty message sequence. -/
theorem c3_incoming_call_creates_rows (db : DB) (o : IncomingOracle)
    (sid f t : String)
    (hfresh : ∀ c ∈ db.calls, c.twilio_call_sid ≠ sid)
    (hcfresh : ∀ cv ∈ db.conversations, cv.call_id ≠ db.next_id)
    (h1 : o.commit1 = .ok ()) (h2 : o.commit2 = .ok ()) :
    (handle_incoming_call db o sid f t).1.calls.filter
        (fun c => c.twilio_call_sid == sid) =
      [{ id := db.next_id, twilio_call_sid := sid, direction := "inbound",
         from_number := f, to_number := t, status := .in_progress,
         duration := none, recording_url := none }] ∧
    (handle_incoming_call db o sid f t).1.conversations.filter
        (fun cv => cv.call_id == db.next_id) =
      [{ call_id := db.next_id, messages := [], summary := none,
         intent := none, sentiment := none }] := by
  have hnilc : db.calls.filter (fun c => c.twilio_call_sid == sid) = [] :=
    List.filter_eq_nil_iff.mpr (fun c hcm => by
      simpa using hfresh c hcm)
  have hnilv : db.conversations.filter (fun cv => cv.call_id == db.next_id) = [] :=
    List.filter_eq_nil_iff.mpr (fun cv hcm => by
      simpa using hcfresh cv hcm)
  simp only [handle_incoming_call, h1, h2]
  constructor
  · rw [List.filter_append, hnilc]
    simp
  · rw [List.filter_append, hnilv]
    simp

/-- Witness for C3: an incoming call with fresh session id `CA123` in the
empty store. -/
theorem c3_witness :
    (∀ c ∈ (DB.mk [] [] [] 0).calls, c.twilio_call_sid ≠ "CA123") ∧
    (∀ cv ∈ (DB.mk [] [] [] 0).conversations, cv.call_id ≠ (DB.mk [] [] [] 0).next_id) ∧
    ((handle_incoming_call (DB.mk [] [] [] 0)
        { commit1 := .ok (), commit2 := .ok () } "CA123" "+1555" "+1800").1.calls.filter
        (fun c => c.twilio_call_sid == "CA123") =
      [{ id := 0, twilio_call_sid := "CA123", direction := "inbound",
         from_number := "+1555", to_number := "+1800", status := .in_progress,
         duration := none, recording_url := none }] ∧
    (handle_incoming_call (DB.mk [] [] [] 0)
        { commit1 := .ok (), commit2 := .ok () } "CA123" "+1555" "+1800").1.conversations.filter
        (fun cv => cv.call_id == 0) =
      [{ call_id := 0, messages := [], summary := none,
         intent := none, sentiment := none }]) :=
  ⟨by decide, by decide,
   c3_incoming_call_creates_rows (DB.mk [] [] [] 0)
     { commit1 := .ok (), commit2 := .ok () } "CA123" "+1555" "+1800"
     (by decide) (by decide) rfl rfl⟩

/-- When every completion request fails, the phone agent returns its
fixed fallback reply, whatever input it was given. -/
theorem generate_response_err (complete : List ChatMessage → Outcome String)
    (hfail : ∀ msgs, complete msgs = .err)
    (user : String) (hist : List ChatMessage) (ctx : Option AgentContext) :
    generate_response complete user hist ctx = agent_fallback := by
  unfold generate_response
  cases ctx with
  | none => simp only [chat_completion, hfail]
  | some c => simp only [chat_completion, hfail]

/-- C1: if the completion provider fails during a speech-gathered turn,
`handle_user_speech` still returns valid call-control markup (it never
raises), and no assistant message with empty content appears in any
stored conversation afterward (given none was stored before): the
appended assistant message is the agent's non-empty fallback reply. -/
theorem c1_completion_failure_markup_no_empty_assistant (dv : Option String)
    (db : DB) (o : SpeechOracle) (now : Nat) (sid speech : String)
    (hfail : ∀ msgs, o.complete msgs = .err)
    (hprior : ∀ cv ∈ db.conversations, ∀ m ∈ cv.messages,
      m.role = "assistant" → m.content ≠ "") :
    ValidTwiml (handle_user_speech dv db o now sid speech).2.1 ∧
    ∀ cv ∈ (handle_user_speech dv db o now sid speech).1.conversations,
      ∀ m ∈ cv.messages, m.role = "assistant" → m.content ≠ "" := by
  refine ⟨handle_user_speech_valid_twiml dv db o now sid speech, ?_⟩
  cases hc : db.findCall sid with
  | none =>
      simp only [handle_user_speech, hc]
      exact hprior
  | some call =>
  cases hv : db.findConversation call.id with
  | none =>
      simp only [handle_user_speech, hc, hv]
      exact hprior
  | some conv =>
  rcases handle_user_speech_run dv db o now sid speech call conv hc hv with
    ⟨_, heq⟩ | ⟨_, hdb, _⟩
  · rw [heq]
    exact hprior
  · rw [hdb]
    have hresp := generate_response_err o.complete hfail speech
        ((conv.add_message "user" speech now).get_messages_for_llm)
        (some { caller_number := some call.from_number,
                company_name := some "Tu Empresa" })
    have hmsgs : (turn_conversation o now speech call conv).messages =
        conv.messages ++
          [Message.mk "user" speech now,
           Message.mk "assistant" agent_fallback now] := by
      unfold turn_conversation
      rw [apply_classification_messages, hresp]
      simp [Conversation.add_message]
    intro cv hcv m hm hrole
    rcases mem_updateConversation hcv with rfl | hcv'
    · rw [hmsgs] at hm
      rcases List.mem_append.mp hm with hm | hm
      · exact hprior conv
          (List.mem_of_find?_eq_some
            (show db.conversations.find? (fun c => c.call_id == call.id) =
              some conv from hv)) m hm hrole
      · simp only [List.mem_cons, List.not_mem_nil, or_false] at hm
        rcases hm with rfl | rfl
        · simp at hrole
        · exact (by decide : agent_fallback ≠ "")
    · exact hprior cv hcv' m hm hrole

/-- A speech oracle whose completion provider always fails but whose
store commit succeeds. -/
def oFail : SpeechOracle :=
  { complete := fun _ => .err, intentClassify := .err,
    sentimentClassify := .err, commit := .ok (), profileQuery := .ok (),
    tts := fun _ => .ok [1] }

/-- Witness for C1 at a concrete store and failing completion provider. -/
theorem c1_witness :
    (∀ msgs, oFail.complete msgs = .err) ∧
    (∀ cv ∈ dbW.conversations, ∀ m ∈ cv.messages,
      m.role = "assistant" → m.content ≠ "") ∧
    (ValidTwiml (handle_user_speech (some "v1") dbW oFail 1 "CA123"
        "hola").2.1 ∧
      ∀ cv ∈ (handle_user_speech (some "v1") dbW oFail 1 "CA123"
          "hola").1.conversations,
        ∀ m ∈ cv.messages, m.role = "assistant" → m.content ≠ "") :=
  ⟨fun _ => rfl, by decide,
   c1_completion_failure_markup_no_empty_assistant (some "v1") dbW oFail 1
     "CA123" "hola" (fun _ => rfl) (by decide)⟩

/-- C8: `PhoneAgent.generate_response` is total over provider failures:
with a failing completion provider it returns the fixed fallback string
for every input instead of raising, and `handle_user_speech` therefore
appends that non-empty string as the assistant message of the turn. -/
theorem c8_generate_response_total_fallback (dv : Option String) (db : DB)
    (o : SpeechOracle) (now : Nat) (sid speech : String)
    (call : Call) (conv : Conversation)
    (hfail : ∀ msgs, o.complete msgs = .err)
    (hc : db.findCall sid = some call)
    (hv : db.findConversation call.id = some conv)
    (hcommit : o.commit = .ok ()) :
    (∀ (user : String) (hist : List ChatMessage) (ctx : Option AgentContext),
      generate_response o.complete user hist ctx =
        "Disculpa, tuve un problema técnico. ¿Podrías repetir lo que dijiste?") ∧
    (∃ cv',
      (handle_user_speech dv db o now sid speech).1.findConversation call.id =
        some cv' ∧
      cv'.messages = conv.messages ++
        [Message.mk "user" speech now,
         Message.mk "assistant"
           "Disculpa, tuve un problema técnico. ¿Podrías repetir lo que dijiste?"
           now] ∧
      "Disculpa, tuve un problema técnico. ¿Podrías repetir lo que dijiste?" ≠
        "") := by
  have hkey : conv.call_id = call.id := by
    simpa using List.find?_some
      (show db.conversations.find? (fun c => c.call_id == call.id) = some conv
        from hv)
  have hcid : (turn_conversation o now speech call conv).call_id = call.id := by
    unfold turn_conversation
    rw [apply_classification_call_id]
    exact hkey
  constructor
  · intro user hist ctx
    exact generate_response_err o.complete hfail user hist ctx
  · rcases handle_user_speech_run dv db o now sid speech call conv hc hv with
      ⟨hcm, _⟩ | ⟨_, hdb, _⟩
    · rw [hcommit] at hcm; cases hcm
    · refine ⟨turn_conversation o now speech call conv, ?_, ?_, by decide⟩
      · rw [hdb]
        exact findConversation_updateConversation db call.id conv _ hv hcid
      · unfold turn_conversation
        rw [apply_classification_messages,
          generate_response_err o.complete hfail]
        simp only [Conversation.add_message, List.append_assoc,
          List.cons_append, List.nil_append]
        rfl

/-- Witness for C8 at a concrete store and failing completion provider. -/
theorem c8_witness :
    (∀ msgs, oFail.complete msgs = .err) ∧
    dbW.findCall "CA123" = some callW ∧
    dbW.findConversation callW.id = some convW ∧
    oFail.commit = .ok () ∧
    ((∀ (user : String) (hist : List ChatMessage) (ctx : Option AgentContext),
      generate_response oFail.complete user hist ctx =
        "Disculpa, tuve un problema técnico. ¿Podrías repetir lo que dijiste?") ∧
    (∃ cv',
      (handle_user_speech none dbW oFail 1 "CA123"
          "hola").1.findConversation callW.id = some cv' ∧
      cv'.messages = convW.messages ++
        [Message.mk "user" "hola" 1,
         Message.mk "assistant"
           "Disculpa, tuve un problema técnico. ¿Podrías repetir lo que dijiste?"
           1] ∧
      "Disculpa, tuve un problema técnico. ¿Podrías repetir lo que dijiste?" ≠
        "")) :=
  ⟨fun _ => rfl, by decide, by decide, rfl,
   c8_generate_response_total_fallback none dbW oFail 1 "CA123" "hola"
     callW convW (fun _ => rfl) (by decide) (by decide) rfl⟩

/-- A conversation for `callW` whose derived fields were stored by an
earlier turn. -/
def convPrior : Conversation :=
  { call_id := 0, messages := [], summary := none,
    intent := some "appointment_scheduling", sentiment := some "positive" }

/-- A store pairing `callW` with `convPrior`. -/
def dbPrior : DB :=
  { calls := [callW], conversations := [convPrior],
    voice_profiles := [], next_id := 1 }

/-- A speech oracle whose two classification calls fail while completion,
commit, profile query and synthesis succeed. -/
def oClassifyFail : SpeechOracle :=
  { complete := fun _ => .ok "De acuerdo.", intentClassify := .err,
    sentimentClassify := .err, commit := .ok (), profileQuery := .ok (),
    tts := fun _ => .ok [1] }

/-- Counterexample to C4 as stated: at this concrete turn both
classification calls fail, yet the conversation's previously stored
intent and sentiment do not remain unchanged — they are overwritten with
the classifiers' defaults `other` and `neutral`. -/
theorem c4_counterexample :
    dbPrior.conversations.map (fun cv => (cv.intent, cv.sentiment)) =
      [(some "appointment_scheduling", some "positive")] ∧
    (handle_user_speech (some "v1") dbPrior oClassifyFail 2 "CA123"
        "hola").1.conversations.map (fun cv => (cv.intent, cv.sentiment)) =
      [(some "other", some "neutral")] := by decide

/-- C4 (amended): if intent and sentiment classification fail during a
speech-gathered turn, the turn still completes — valid call-control
markup is returned and nothing is raised — but the conversation's prior
intent and sentiment fields do not survive: the handler overwrites them
with the classifiers' fallback defaults `other` and `neutral`. -/
theorem c4_classification_failure_completes_with_defaults
    (dv : Option String) (db : DB) (o : SpeechOracle) (now : Nat)
    (sid speech : String) (call : Call) (conv : Conversation)
    (hc : db.findCall sid = some call)
    (hv : db.findConversation call.id = some conv)
    (hi : o.intentClassify = .err) (hs : o.sentimentClassify = .err)
    (hcommit : o.commit = .ok ()) :
    ValidTwiml (handle_user_speech dv db o now sid speech).2.1 ∧
    ∃ cv',
      (handle_user_speech dv db o now sid speech).1.findConversation call.id =
        some cv' ∧
      cv'.intent = some "other" ∧ cv'.sentiment = some "neutral" := by
  have hkey : conv.call_id = call.id := by
    simpa using List.find?_some
      (show db.conversations.find? (fun c => c.call_id == call.id) = some conv
        from hv)
  have hcid : (turn_conversation o now speech call conv).call_id = call.id := by
    unfold turn_conversation
    rw [apply_classification_call_id]
    exact hkey
  refine ⟨handle_user_speech_valid_twiml dv db o now sid speech, ?_⟩
  rcases handle_user_speech_run dv db o now sid speech call conv hc hv with
    ⟨hcm, _⟩ | ⟨_, hdb, _⟩
  · rw [hcommit] at hcm; cases hcm
  · refine ⟨turn_conversation o now speech call conv, ?_, ?_, ?_⟩
    · rw [hdb]
      exact findConversation_updateConversation db call.id conv _ hv hcid
    · unfold turn_conversation
      rw [hi, hs, apply_classification_err]
    · unfold turn_conversation
      rw [hi, hs, apply_classification_err]

/-- Witness for the amended C4 at the concrete prior-fields store. -/
theorem c4_witness :
    dbPrior.findCall "CA123" = some callW ∧
    dbPrior.findConversation callW.id = some convPrior ∧
    oClassifyFail.intentClassify = .err ∧
    oClassifyFail.sentimentClassify = .err ∧
    oClassifyFail.commit = .ok () ∧
    (ValidTwiml (handle_user_speech (some "v1") dbPrior oClassifyFail 2
        "CA123" "hola").2.1 ∧
      ∃ cv',
        (handle_user_speech (some "v1") dbPrior oClassifyFail 2 "CA123"
            "hola").1.findConversation callW.id = some cv' ∧
        cv'.intent = some "other" ∧ cv'.sentiment = some "neutral") :=
  ⟨by decide, by decide, rfl, rfl, rfl,
   c4_classification_failure_completes_with_defaults (some "v1") dbPrior
     oClassifyFail 2 "CA123" "hola" callW convPrior (by decide) (by decide)
     rfl rfl rfl⟩

/-- Counterexample to C5 as stated: at this concrete turn the handler
commits exactly once, and that single commit contains both the appended
user message and its assistant reply, so no commit — hence no crash
point — leaves the user message persisted without the assistant reply. -/
theorem c5_counterexample :
    (handle_user_speech (some "v1") dbW oClassifyFail 3 "CA123"
        "hola").2.2.length = 1 ∧
    ∀ d ∈ (handle_user_speech (some "v1") dbW oClassifyFail 3 "CA123"
        "hola").2.2,
      ∀ cv ∈ d.conversations,
        (∃ m ∈ cv.messages, m.role = "user" ∧ m.content = "hola") →
        ∃ m ∈ cv.messages, m.role = "assistant" := by decide

/-- C5 (amended): `handle_user_speech` batches the whole turn into a
single `db.commit()` placed after both messages are appended: a turn
commits at most once, and every committed snapshot holds the assistant
reply immediately after the appended user message, so no crash point
leaves the user message persisted without its assistant reply. -/
theorem c5_single_commit_pairs_messages (dv : Option String) (db : DB)
    (o : SpeechOracle) (now : Nat) (sid speech : String)
    (call : Call) (conv : Conversation)
    (hc : db.findCall sid = some call)
    (hv : db.findConversation call.id = some conv) :
    (handle_user_speech dv db o now sid speech).2.2.length ≤ 1 ∧
    ∀ d ∈ (handle_user_speech dv db o now sid speech).2.2,
      ∃ cv' resp, d.findConversation call.id = some cv' ∧
        cv'.messages = conv.messages ++
          [Message.mk "user" speech now, Message.mk "assistant" resp now] := by
  have hkey : conv.call_id = call.id := by
    simpa using List.find?_some
      (show db.conversations.find? (fun c => c.call_id == call.id) = some conv
        from hv)
  have hcid : (turn_conversation o now speech call conv).call_id = call.id := by
    unfold turn_conversation
    rw [apply_classification_call_id]
    exact hkey
  rcases handle_user_speech_run dv db o now sid speech call conv hc hv with
    ⟨_, heq⟩ | ⟨_, _, htr⟩
  · rw [heq]
    exact ⟨Nat.zero_le 1, by intro d hd; cases hd⟩
  · rw [htr]
    refine ⟨Nat.le_refl 1, ?_⟩
    intro d hd
    rcases List.mem_singleton.mp hd with rfl
    refine ⟨turn_conversation o now speech call conv,
      generate_response o.complete speech
        ((conv.add_message "user" speech now).get_messages_for_llm)
        (some { caller_number := some call.from_number,
                company_name := some "Tu Empresa" }),
      findConversation_updateConversation db call.id conv _ hv hcid, ?_⟩
    unfold turn_conversation
    rw [apply_classification_messages]
    simp [Conversation.add_message]

/-- Witness for the amended C5 at a concrete turn. -/
theorem c5_witness :
    dbW.findCall "CA123" = some callW ∧
    dbW.findConversation callW.id = some convW ∧
    ((handle_user_speech (some "v1") dbW oClassifyFail 3 "CA123"
        "hola").2.2.length ≤ 1 ∧
    ∀ d ∈ (handle_user_speech (some "v1") dbW oClassifyFail 3 "CA123"
        "hola").2.2,
      ∃ cv' resp, d.findConversation callW.id = some cv' ∧
        cv'.messages = convW.messages ++
          [Message.mk "user" "hola" 3, Message.mk "assistant" resp 3]) :=
  ⟨by decide, by decide,
   c5_single_commit_pairs_messages (some "v1") dbW oClassifyFail 3 "CA123"
     "hola" callW convW (by decide) (by decide)⟩

end VA
